import Mathlib

/-!
Verification of the fleet-health / data-collection supervisor scripts.

Shallow embedding of:
- src/transfer_with_retry.py  (namespace TWR): multi-cycle scheduler with
  heartbeat gate, candidate ranking and retry/backoff transfer engine;
- src/queue_shipped_data.py  (namespace QSD): always-running daemon with
  alive/dead node states and a transfer_fail flag;
- src/beam/BEAM_supervisor_package/supervisor_ping_check.py (namespace SPC):
  health-check probe pass and catch-up transfer pass;
- src/beam/BEAM_supervisor_package/transfer_with_retry.py (namespace BEAMT):
  daily data run and its retry loop variant.

External effects are abstracted as oracles: probe outcomes, rsync attempt
outcomes, float parsing and heartbeat-file modification times are parameters;
sleeps and rsync invocations are recorded as explicit traces so that the
scheduling claims can be stated about them.
-/

/-- Python string modelled as a list of characters. -/
abbrev PyStr := List Char

/-- Helper for splitChar: accumulates the current field (reversed). -/
def splitCharAux (c : Char) : List Char → List Char → List (List Char)
  | [], acc => [acc.reverse]
  | x :: xs, acc =>
    if x == c then acc.reverse :: splitCharAux c xs []
    else splitCharAux c xs (x :: acc)

/-- Python str.split(sep) for a single-character separator: keeps empty fields,
always returns at least one field. -/
def splitChar (c : Char) (s : PyStr) : List PyStr := splitCharAux c s []

/-- Prefix test on character lists. -/
def isPrefixOfL : PyStr → PyStr → Bool
  | [], _ => true
  | _ :: _, [] => false
  | a :: as, b :: bs => a == b && isPrefixOfL as bs

/-- Python substring containment: pat in s. -/
def isSubstrL (pat : PyStr) : PyStr → Bool
  | [] => isPrefixOfL pat []
  | b :: bs => isPrefixOfL pat (b :: bs) || isSubstrL pat bs

/-- Whitespace as stripped by Python str.strip(). -/
def isPySpace (c : Char) : Bool :=
  c == ' ' || c == '\t' || c == '\n' || c == '\r'

/-- Drop leading whitespace. -/
def dropSpaces : PyStr → PyStr
  | [] => []
  | c :: cs => if isPySpace c then dropSpaces cs else c :: cs

/-- Python str.strip(): drop leading and trailing whitespace. -/
def pyStrip (s : PyStr) : PyStr :=
  (dropSpaces ((dropSpaces s).reverse)).reverse

/-- Python int() applied to a numeric value, modelled on rationals:
truncation toward zero.  Both integer divisions below are applied to
non-negative operands, where every division convention agrees. -/
def pyInt (q : ℚ) : ℤ :=
  if q < 0 then -((-q).num / ((-q).den : ℤ)) else q.num / (q.den : ℤ)

/-- Uncaught Python exceptions relevant to the probe parsers. -/
inductive PyErr where
  | indexError
  | valueError
deriving DecidableEq

/-- delay = int(delay * backoff_factor): one step of the backoff update shared
by both rsync_data retry loops. -/
def backoffNext (bf : ℚ) (d : ℤ) : ℤ := pyInt ((d : ℚ) * bf)

/-- The k-th delay value produced from initial delay d0 by repeated backoff. -/
def delaySeq (bf : ℚ) (d0 : ℤ) : ℕ → ℤ
  | 0 => d0
  | k + 1 => backoffNext bf (delaySeq bf d0 k)

/-- Observable outcome of one rsync_data call: final result, number of rsync
invocations, and the sleep durations in order. -/
structure RsyncTrace where
  success : Bool
  attemptsMade : ℕ
  sleeps : List ℤ
deriving DecidableEq

namespace TWR

/-- Result of one external process invocation (subprocess.run without check):
exit code and captured stdout already split into lines. -/
structure ProcResult where
  returncode : ℤ
  stdout : List PyStr

/-- The rtt marker searched for by transfer_with_retry.ping_latency. -/
def rttPat : PyStr := "min/avg/max".toList

/-- Parsing of a matching rtt line (transfer_with_retry.py lines 45-50):
parts = line.split("=")[-1].strip().split("/"); then float(parts[1]) inside
try/except (IndexError, ValueError) returning None.  The float() parse is the
oracle pf; a missing index or a failed parse both yield none. -/
def parseAvg (pf : PyStr → Option ℚ) (line : PyStr) : Option ℚ :=
  let parts := splitChar '/' (pyStrip ((splitChar '=' line).getLastD []))
  match parts.get? 1 with
  | none => none
  | some p => pf p

/-- Line scan of transfer_with_retry.ping_latency (lines 43-51): the first line
containing "min/avg/max" decides the result; no matching line yields None. -/
def pingScan (pf : PyStr → Option ℚ) : List PyStr → Option ℚ
  | [] => none
  | l :: ls => if isSubstrL rttPat l then parseAvg pf l else pingScan pf ls

/-- transfer_with_retry.ping_latency (lines 31-51): nonzero ping exit code
yields None, otherwise the stdout scan runs with all parse errors caught. -/
def ping_latency (res : ProcResult) (pf : PyStr → Option ℚ) : Option ℚ :=
  if res.returncode ≠ 0 then none else pingScan pf res.stdout

/-- The retry loop of rsync_data (transfer_with_retry.py lines 74-107),
parameterised by the number of loop iterations still allowed.  attempt is the
1-based attempt counter; the external rsync outcome of the i-th attempt is the
oracle attemptOk i.  On failure a sleep happens only when attempts remain
(attempt < max_retries, i.e. remaining > 1). -/
def rsyncGo (attemptOk : ℕ → Bool) (bf : ℚ) : ℕ → ℕ → ℤ → RsyncTrace
  | 0, _, _ => ⟨false, 0, []⟩
  | remaining + 1, attempt, delay =>
    if attemptOk attempt then ⟨true, 1, []⟩
    else if remaining = 0 then ⟨false, 1, []⟩
    else
      let t := rsyncGo attemptOk bf remaining (attempt + 1) (backoffNext bf delay)
      ⟨t.success, t.attemptsMade + 1, delay :: t.sleeps⟩

/-- rsync_data (transfer_with_retry.py lines 54-107): attempt starts at 1 and the
loop runs while attempt <= max_retries, so the body executes max(max_retries, 0)
times unless an attempt succeeds. -/
def rsync_data (attemptOk : ℕ → Bool) (max_retries retry_delay : ℤ)
    (backoff_factor : ℚ) : RsyncTrace :=
  rsyncGo attemptOk backoff_factor max_retries.toNat 1 retry_delay

/-- Heartbeat marker path: os.path.join(heartbeat_dir, node_name + ".alive"). -/
def heartbeatPath (heartbeat_dir node_name : String) : String :=
  heartbeat_dir ++ "/" ++ node_name ++ ".alive"

/-- has_fresh_heartbeat (transfer_with_retry.py lines 110-133).  fs models the
filesystem: some mtime when the path exists and is statable, none when it is
missing or unreadable (os.path.exists is false in both cases, so getmtime is
reached only on statable entries). -/
def has_fresh_heartbeat (fs : String → Option ℚ) (now : ℚ)
    (node_name heartbeat_dir : String) (max_age_sec : ℤ) : Bool :=
  match fs (heartbeatPath heartbeat_dir node_name) with
  | none => false
  | some mtime => if now - mtime > (max_age_sec : ℚ) then false else true

/-- One configured node as read by main: name, ip, optional priority. -/
structure CfgNode where
  name : String
  ip : String
  priority : Option ℤ
deriving DecidableEq

/-- One scheduling candidate with its rank key. -/
structure Cand where
  name : String
  priority : ℤ
  latency : ℚ
deriving DecidableEq

/-- Candidate building of main (transfer_with_retry.py lines 181-197): for each
remaining node, skip unless the heartbeat is fresh, then skip unless ping
yields a latency, else record (priority, latency) with priority defaulted
to 999. -/
def buildCandidates (hb : String → Bool) (lat : String → Option ℚ) :
    List CfgNode → List Cand
  | [] => []
  | c :: cs =>
    if hb c.name then
      match lat c.ip with
      | some l => ⟨c.name, c.priority.getD 999, l⟩ :: buildCandidates hb lat cs
      | none => buildCandidates hb lat cs
    else buildCandidates hb lat cs

/-- Sort key order of main lines 203-206: ascending (priority, latency). -/
def candLe (a b : Cand) : Prop :=
  a.priority < b.priority ∨ (a.priority = b.priority ∧ a.latency ≤ b.latency)

instance : DecidableRel candLe := fun a b => by
  unfold candLe; infer_instance

instance : IsTotal Cand candLe where
  total a b := by
    unfold candLe
    rcases lt_trichotomy a.priority b.priority with h | h | h
    · exact Or.inl (Or.inl h)
    · rcases le_total a.latency b.latency with hl | hl
      · exact Or.inl (Or.inr ⟨h, hl⟩)
      · exact Or.inr (Or.inr ⟨h.symm, hl⟩)
    · exact Or.inr (Or.inl h)

instance : IsTrans Cand candLe where
  trans a b c hab hbc := by
    unfold candLe at *
    rcases hab with h1 | ⟨h1, h1l⟩
    · rcases hbc with h2 | ⟨h2, _⟩
      · exact Or.inl (h1.trans h2)
      · exact Or.inl (h2 ▸ h1)
    · rcases hbc with h2 | ⟨h2, h2l⟩
      · exact Or.inl (h1 ▸ h2)
      · exact Or.inr ⟨h1.trans h2, h1l.trans h2l⟩

/-- sorted(candidates.items(), key = (priority, latency)): a stable sort by the
rank key, modelled by insertion sort (Python sorted is stable). -/
def sortCandidates (cs : List Cand) : List Cand := cs.insertionSort candLe

/-- The order in which the transfer loop of main (lines 208-232) visits the
candidates. -/
def processOrder (cs : List Cand) : List String :=
  (sortCandidates cs).map Cand.name

/-- max_cycles = int(cfg.get("max_cycles", 3)) (line 153). -/
def getMaxCycles (cfgVal : Option ℤ) : ℤ := cfgVal.getD 3

/-- The cycle loop of main (lines 167-241) with the cycle body abstracted as
step (candidate building, transfers and removals from remaining).  fuel is the
number of for-range iterations left, cycle the 1-based cycle counter; the loop
breaks at the top of an iteration once remaining is empty.  Returns the number
of cycle bodies executed and the final remaining set. -/
def cycleLoop (step : ℕ → List String → List String) :
    ℕ → ℕ → List String → ℕ × List String
  | 0, _, remaining => (0, remaining)
  | fuel + 1, cycle, remaining =>
    if remaining = [] then (0, remaining)
    else
      let r := cycleLoop step fuel (cycle + 1) (step cycle remaining)
      (r.1 + 1, r.2)

/-- The whole bounded run: for cycle in range(1, max_cycles + 1), which iterates
max(max_cycles, 0) times. -/
def runScheduler (step : ℕ → List String → List String) (max_cycles : ℤ)
    (remaining : List String) : ℕ × List String :=
  cycleLoop step max_cycles.toNat 1 remaining

end TWR

namespace QSD

/-- Node (queue_shipped_data.py lines 49-62). -/
structure Node where
  name : String
  ip : String
  transfer_fail : Bool
  state : String
deriving DecidableEq

/-- Marker searched for by queue_shipped_data.ping_latency. -/
def avgPat : PyStr := "avg".toList

/-- Line scan of queue_shipped_data.ping_latency (lines 130-134): on the first
line containing "avg", avg_str = line.split("/")[4] and float(avg_str) are
evaluated with NO surrounding handler for IndexError or ValueError, so either
failure propagates as an uncaught exception. -/
def pingScan (pf : PyStr → Option ℚ) : List PyStr → Except PyErr (Option ℚ)
  | [] => .ok none
  | l :: ls =>
    if isSubstrL avgPat l then
      match (splitChar '/' l).get? 4 with
      | none => .error .indexError
      | some s =>
        match pf s with
        | none => .error .valueError
        | some v => .ok (some v)
    else pingScan pf ls

/-- queue_shipped_data.ping_latency (lines 120-136): check_output raises
CalledProcessError on nonzero exit, which is caught and returns None; on zero
exit the scan runs with parse exceptions uncaught. -/
def ping_latency (returncode : ℤ) (outputLines : List PyStr)
    (pf : PyStr → Option ℚ) : Except PyErr (Option ℚ) :=
  if returncode = 0 then pingScan pf outputLines else .ok none

/-- ping_nodes body per node (lines 181-190): every node is probed and set to
alive or dead accordingly. -/
def pingNode (reach : String → Bool) (n : Node) : Node :=
  if reach n.ip then { n with state := "alive" } else { n with state := "dead" }

/-- ping_dead_nodes body per node (lines 193-206): only non-alive nodes are
probed, and a responding node is promoted to alive; nothing is ever demoted. -/
def pingDeadNode (reach : String → Bool) (n : Node) : Node :=
  if n.state ≠ "alive" then
    (if reach n.ip then { n with state := "alive" } else n)
  else n

/-- Initial transfer pass body per node (lines 225-233): only alive nodes whose
transfer_fail is false are attempted; a failed attempt sets transfer_fail. -/
def initialStep (rsyncOk : String → Bool) (n : Node) : Node :=
  if n.state = "alive" ∧ n.transfer_fail = false then
    (if rsyncOk n.name then n else { n with transfer_fail := true })
  else n

/-- Retry pass body per node (lines 247-254): alive nodes with transfer_fail
true are attempted and the flag is cleared exactly on success.  The Bool
records whether rsync_shipped_data was invoked for this node. -/
def retryStep (rsyncOk : String → Bool) (n : Node) : Node × Bool :=
  if n.state = "alive" ∧ n.transfer_fail = true then
    (if rsyncOk n.name then { n with transfer_fail := false } else n, true)
  else (n, false)

/-- Retry transfer pass over the node list, also returning the names whose
transfer was attempted, in order. -/
def retryPass (rsyncOk : String → Bool) : List Node → List Node × List String
  | [] => ([], [])
  | n :: ns =>
    let p := retryStep rsyncOk n
    let r := retryPass rsyncOk ns
    (p.1 :: r.1, if p.2 then n.name :: r.2 else r.2)

/-- One full retry cycle of the daemon loop (lines 237-256) for a single node:
re-ping if not alive, then retry the transfer if alive and failed. -/
def cycleNode (reach rsyncOk : String → Bool) (n : Node) : Node :=
  (retryStep rsyncOk (pingDeadNode reach n)).1

/-- k retry cycles with per-cycle probe and rsync oracles. -/
def runRetryCycles (reach rsyncOk : ℕ → String → Bool) : ℕ → Node → Node
  | 0, n => n
  | k + 1, n => runRetryCycles reach rsyncOk k (cycleNode (reach k) (rsyncOk k) n)

end QSD

/-- Per-node persisted state of the beam package (supervisor_state.json), shared
by supervisor_ping_check.py and beam/transfer_with_retry.py. -/
structure BState where
  node_alive : Bool
  fail_to_request_data : Bool
  last_online_time : Option ℤ
  last_offline_time : Option ℤ
  last_fail_time : Option ℤ
deriving DecidableEq

namespace SPC

/-- Health-check probe body per node (supervisor_ping_check.py lines 55-67):
the two ifs run in sequence against the mutated state. -/
def probeNode (is_alive : Bool) (now : ℤ) (s : BState) : BState :=
  let s1 :=
    if is_alive = true ∧ s.node_alive = false then
      { s with node_alive := true, last_online_time := some now }
    else s
  if is_alive = false ∧ s1.node_alive = true then
    { s1 with node_alive := false, last_offline_time := some now }
  else s1

/-- Catch-up body per node (supervisor_ping_check.py lines 69-78): a node with
both flags set is attempted, with no heartbeat condition; the flag is cleared
exactly on success.  The Bool records whether rsync_data was invoked. -/
def catchupNode (rsyncOk : Bool) (s : BState) : BState × Bool :=
  if s.fail_to_request_data = true ∧ s.node_alive = true then
    (if rsyncOk then { s with fail_to_request_data := false } else s, true)
  else (s, false)

end SPC

namespace BEAMT

/-- The retry loop of the beam rsync_data (beam transfer_with_retry.py lines
36-48): for attempt in range(1, max_retries + 1), and on failure it sleeps and
re-scales the delay after EVERY failed attempt, including the last one. -/
def rsyncLoop (attemptOk : ℕ → Bool) (bf : ℚ) : ℕ → ℕ → ℤ → RsyncTrace
  | 0, _, _ => ⟨false, 0, []⟩
  | remaining + 1, attempt, delay =>
    if attemptOk attempt then ⟨true, 1, []⟩
    else
      let t := rsyncLoop attemptOk bf remaining (attempt + 1) (backoffNext bf delay)
      ⟨t.success, t.attemptsMade + 1, delay :: t.sleeps⟩

/-- beam rsync_data (beam transfer_with_retry.py lines 26-48). -/
def rsync_data (attemptOk : ℕ → Bool) (max_retries retry_delay : ℤ)
    (backoff_factor : ℚ) : RsyncTrace :=
  rsyncLoop attemptOk backoff_factor max_retries.toNat 1 retry_delay

/-- Daily-run main body per node (beam transfer_with_retry.py lines 57-74):
a failed ping unconditionally sets node_alive false and stamps
last_offline_time, regardless of the previously recorded state; otherwise the
pull runs and sets or clears fail_to_request_data by its outcome. -/
def dailyNode (pingOk : Bool) (rsyncOk : Bool) (now : ℤ) (s : BState) : BState :=
  if pingOk = false then
    { s with node_alive := false, last_offline_time := some now }
  else if rsyncOk then { s with fail_to_request_data := false }
  else { s with fail_to_request_data := true, last_fail_time := some now }

end BEAMT

section HelperLemmas

theorem delaySeq_shift (bf : ℚ) (d : ℤ) (k : ℕ) :
    delaySeq bf (backoffNext bf d) k = delaySeq bf d (k + 1) := by
  induction k with
  | zero => rfl
  | succ k ih => simp [delaySeq, ih]

theorem rangeMap_delaySeq (bf : ℚ) (delay : ℤ) (m : ℕ) :
    (List.range (m + 1)).map (delaySeq bf delay) =
      delay :: (List.range m).map (delaySeq bf (backoffNext bf delay)) := by
  rw [List.range_succ_eq_map, List.map_cons, List.map_map]
  refine congrArg₂ List.cons rfl ?_
  refine List.map_congr_left (fun k _ => ?_)
  simp [Function.comp, delaySeq_shift]

theorem rsyncGo_failStep (attemptOk : ℕ → Bool) (bf : ℚ) (m attempt : ℕ) (delay : ℤ)
    (hfail : attemptOk attempt = false) :
    TWR.rsyncGo attemptOk bf (m + 1 + 1) attempt delay =
      { success := (TWR.rsyncGo attemptOk bf (m + 1) (attempt + 1) (backoffNext bf delay)).success,
        attemptsMade :=
          (TWR.rsyncGo attemptOk bf (m + 1) (attempt + 1) (backoffNext bf delay)).attemptsMade + 1,
        sleeps :=
          delay :: (TWR.rsyncGo attemptOk bf (m + 1) (attempt + 1) (backoffNext bf delay)).sleeps } := by
  simp only [TWR.rsyncGo, hfail, Bool.false_eq_true, if_false, Nat.succ_ne_zero]

theorem rsyncGo_allFail (attemptOk : ℕ → Bool) (bf : ℚ)
    (h : ∀ i, attemptOk i = false) :
    ∀ (rem attempt : ℕ) (delay : ℤ),
      TWR.rsyncGo attemptOk bf rem attempt delay =
        ⟨false, rem, (List.range (rem - 1)).map (delaySeq bf delay)⟩ := by
  intro rem
  induction rem with
  | zero => intro attempt delay; rfl
  | succ n ih =>
    intro attempt delay
    cases n with
    | zero => simp [TWR.rsyncGo, h]
    | succ m =>
      rw [rsyncGo_failStep attemptOk bf m attempt delay (h attempt),
        ih (attempt + 1) (backoffNext bf delay)]
      simp [rangeMap_delaySeq, Nat.add_sub_cancel]

theorem buildCandidates_fresh (hb : String → Bool) (lat : String → Option ℚ) :
    ∀ (ns : List TWR.CfgNode) (c : TWR.Cand),
      c ∈ TWR.buildCandidates hb lat ns → hb c.name = true := by
  intro ns
  induction ns with
  | nil => intro c hc; simp [TWR.buildCandidates] at hc
  | cons x xs ih =>
    intro c hc
    cases hx : hb x.name with
    | false => rw [TWR.buildCandidates, if_neg (by simp [hx])] at hc; exact ih c hc
    | true =>
      cases hlx : lat x.ip with
      | none => rw [TWR.buildCandidates, if_pos hx, hlx] at hc; exact ih c hc
      | some l =>
        rw [TWR.buildCandidates, if_pos hx, hlx] at hc
        rcases List.mem_cons.mp hc with rfl | hc
        · exact hx
        · exact ih c hc

theorem buildCandidates_mem (hb : String → Bool) (lat : String → Option ℚ) :
    ∀ (ns : List TWR.CfgNode) (n : TWR.CfgNode) (l : ℚ),
      n ∈ ns → hb n.name = true → lat n.ip = some l →
      (⟨n.name, n.priority.getD 999, l⟩ : TWR.Cand) ∈ TWR.buildCandidates hb lat ns := by
  intro ns
  induction ns with
  | nil => intro n l hn; cases hn
  | cons x xs ih =>
    intro n l hn hfresh hlat
    rcases List.mem_cons.mp hn with rfl | hn
    · rw [TWR.buildCandidates, if_pos hfresh, hlat]
      exact List.mem_cons_self _ _
    · have hrec := ih n l hn hfresh hlat
      cases hx : hb x.name with
      | false => rw [TWR.buildCandidates, if_neg (by simp [hx])]; exact hrec
      | true =>
        cases hlx : lat x.ip with
        | none => rw [TWR.buildCandidates, if_pos hx, hlx]; exact hrec
        | some l2 =>
          rw [TWR.buildCandidates, if_pos hx, hlx]
          exact List.mem_cons_of_mem _ hrec

theorem retryPass_mem (rsyncOk : String → Bool) :
    ∀ (ns : List QSD.Node) (n : QSD.Node),
      n ∈ ns → n.state = "alive" → n.transfer_fail = true →
      n.name ∈ (QSD.retryPass rsyncOk ns).2 := by
  intro ns
  induction ns with
  | nil => intro n hn; cases hn
  | cons x xs ih =>
    intro n hn hs hf
    rcases List.mem_cons.mp hn with rfl | hn
    · have hstep : (QSD.retryStep rsyncOk n).2 = true := by
        unfold QSD.retryStep
        rw [if_pos ⟨hs, hf⟩]
      simp [QSD.retryPass, hstep]
    · have hrec := ih n hn hs hf
      by_cases hx : (QSD.retryStep rsyncOk x).2 = true
      · simp [QSD.retryPass, hx]
        exact Or.inr hrec
      · simp [QSD.retryPass, hx]
        exact hrec

theorem catchupNode_attempts (rsyncOk : Bool) (s : BState)
    (hf : s.fail_to_request_data = true) (ha : s.node_alive = true) :
    (SPC.catchupNode rsyncOk s).2 = true := by
  unfold SPC.catchupNode
  rw [if_pos ⟨hf, ha⟩]

theorem probeNode_frame (a : Bool) (now : ℤ) (s : BState) (h : a = s.node_alive) :
    SPC.probeNode a now s = s := by
  cases a <;> simp [SPC.probeNode, ← h]

theorem probeNode_online (a : Bool) (now : ℤ) (s : BState)
    (h : (SPC.probeNode a now s).last_online_time ≠ s.last_online_time) :
    a = true ∧ s.node_alive = false := by
  cases a <;> cases hn : s.node_alive <;> simp [SPC.probeNode, hn] at h ⊢

theorem probeNode_offline (a : Bool) (now : ℤ) (s : BState)
    (h : (SPC.probeNode a now s).last_offline_time ≠ s.last_offline_time) :
    a = false ∧ s.node_alive = true := by
  cases a <;> cases hn : s.node_alive <;> simp [SPC.probeNode, hn] at h ⊢

theorem pingDeadNode_alive (reach : String → Bool) (n : QSD.Node)
    (h : n.state = "alive") : QSD.pingDeadNode reach n = n := by
  unfold QSD.pingDeadNode
  rw [if_neg (by simp [h])]

theorem retryStep_state (rsyncOk : String → Bool) (n : QSD.Node) :
    (QSD.retryStep rsyncOk n).1.state = n.state := by
  unfold QSD.retryStep
  split_ifs <;> rfl

theorem cycleNode_alive (reach rsyncOk : String → Bool) (n : QSD.Node)
    (h : n.state = "alive") : (QSD.cycleNode reach rsyncOk n).state = "alive" := by
  unfold QSD.cycleNode
  rw [pingDeadNode_alive reach n h, retryStep_state]
  exact h

theorem runRetryCycles_alive (reach rsyncOk : ℕ → String → Bool) (k : ℕ) :
    ∀ (n : QSD.Node), n.state = "alive" →
      (QSD.runRetryCycles reach rsyncOk k n).state = "alive" := by
  induction k with
  | zero => intro n h; exact h
  | succ m ih =>
    intro n h
    rw [QSD.runRetryCycles]
    exact ih _ (cycleNode_alive _ _ n h)

theorem cycleLoop_nil (step : ℕ → List String → List String) (fuel cycle : ℕ) :
    TWR.cycleLoop step fuel cycle [] = (0, []) := by
  cases fuel <;> simp [TWR.cycleLoop]

theorem cycleLoop_le (step : ℕ → List String → List String) :
    ∀ (fuel cycle : ℕ) (rem : List String),
      (TWR.cycleLoop step fuel cycle rem).1 ≤ fuel := by
  intro fuel
  induction fuel with
  | zero => intro c r; exact Nat.le_refl 0
  | succ m ih =>
    intro c r
    by_cases hr : r = []
    · simp [TWR.cycleLoop, hr]
    · simp only [TWR.cycleLoop, if_neg hr]
      exact Nat.succ_le_succ (ih (c + 1) (step c r))

theorem cycleLoop_early (step : ℕ → List String → List String) :
    ∀ (fuel cycle : ℕ) (rem : List String),
      (TWR.cycleLoop step fuel cycle rem).1 < fuel →
      (TWR.cycleLoop step fuel cycle rem).2 = [] := by
  intro fuel
  induction fuel with
  | zero => intro c r h; exact absurd h (Nat.lt_irrefl 0)
  | succ m ih =>
    intro c r h
    by_cases hr : r = []
    · simp [TWR.cycleLoop, hr]
    · simp only [TWR.cycleLoop, if_neg hr] at h ⊢
      exact ih (c + 1) (step c r) (Nat.lt_of_succ_lt_succ h)

theorem twrScan_some (pf : PyStr → Option ℚ) :
    ∀ (lines : List PyStr) (v : ℚ),
      TWR.pingScan pf lines = some v →
      ∃ l, l ∈ lines ∧ isSubstrL TWR.rttPat l = true ∧ TWR.parseAvg pf l = some v := by
  intro lines
  induction lines with
  | nil => intro v h; simp [TWR.pingScan] at h
  | cons l ls ih =>
    intro v h
    rw [TWR.pingScan] at h
    by_cases hm : isSubstrL TWR.rttPat l = true
    · rw [if_pos hm] at h
      exact ⟨l, List.mem_cons_self l ls, hm, h⟩
    · rw [if_neg hm] at h
      obtain ⟨l2, hl2, hsub, hp⟩ := ih v h
      exact ⟨l2, List.mem_cons_of_mem _ hl2, hsub, hp⟩

theorem qsdScan_noAvg (pf : PyStr → Option ℚ) :
    ∀ (lines : List PyStr),
      (∀ l ∈ lines, isSubstrL QSD.avgPat l = false) →
      QSD.pingScan pf lines = .ok none := by
  intro lines
  induction lines with
  | nil => intro _; rfl
  | cons l ls ih =>
    intro h
    have hl := h l (List.mem_cons_self l ls)
    rw [QSD.pingScan, if_neg (by simp [hl])]
    exact ih (fun x hx => h x (List.mem_cons_of_mem _ hx))

end HelperLemmas

/-- C1 counterexample: the retry cycle of queue_shipped_data.py attempts a node
with transfer_fail = true and state alive while every heartbeat is stale or
missing (heartbeat oracle constantly false): the code consults no heartbeat at
all, so the catch-up attempt happens anyway, contradicting the claim that a
transferFailed node is attempted only when its heartbeat is fresh. -/
theorem claim1_counterexample :
    (QSD.retryPass (fun _ => false) [⟨"beta", "10.0.0.2", true, "alive"⟩]).2 = ["beta"] ∧
    (⟨"beta", "10.0.0.2", true, "alive"⟩ : QSD.Node).transfer_fail = true ∧
    (fun _ : String => false) "beta" = false := by
  exact ⟨by decide, rfl, rfl⟩

/-- C1 (amended): in the multi-cycle scheduler of transfer_with_retry.py, every
candidate (first-time or catch-up alike) must have a fresh heartbeat — a node
with a stale or missing heartbeat is excluded from the cycle's candidate set
even if the latency probe succeeds, and a remaining node whose heartbeat is
fresh and which is reachable is a candidate of that cycle; by contrast the
catch-up loops of queue_shipped_data.py and supervisor_ping_check.py attempt a
node with the transfer-failed flag set whenever it is alive, with no heartbeat
condition at all. -/
theorem claim1_amended :
    (∀ (hb : String → Bool) (lat : String → Option ℚ) (ns : List TWR.CfgNode)
        (c : TWR.Cand), c ∈ TWR.buildCandidates hb lat ns → hb c.name = true) ∧
    (∀ (hb : String → Bool) (lat : String → Option ℚ) (ns : List TWR.CfgNode)
        (n : TWR.CfgNode) (l : ℚ), n ∈ ns → hb n.name = true → lat n.ip = some l →
        (⟨n.name, n.priority.getD 999, l⟩ : TWR.Cand) ∈ TWR.buildCandidates hb lat ns) ∧
    (∀ (rsyncOk : String → Bool) (ns : List QSD.Node) (n : QSD.Node),
        n ∈ ns → n.state = "alive" → n.transfer_fail = true →
        n.name ∈ (QSD.retryPass rsyncOk ns).2) ∧
    (∀ (rsyncOk : Bool) (s : BState),
        s.fail_to_request_data = true → s.node_alive = true →
        (SPC.catchupNode rsyncOk s).2 = true) :=
  ⟨fun hb lat ns c => buildCandidates_fresh hb lat ns c,
   fun hb lat ns n l => buildCandidates_mem hb lat ns n l,
   fun rok ns n => retryPass_mem rok ns n,
   fun rok s hf ha => catchupNode_attempts rok s hf ha⟩

/-- C1 witness: a remaining node with fresh heartbeat and a successful latency
probe is a candidate of the cycle. -/
theorem claim1_witness :
    (⟨"a", 999, 1⟩ : TWR.Cand) ∈
      TWR.buildCandidates (fun _ => true) (fun _ => some 1) [⟨"a", "ip", none⟩] :=
  claim1_amended.2.1 (fun _ => true) (fun _ => some 1) [⟨"a", "ip", none⟩]
    ⟨"a", "ip", none⟩ 1 (by decide) rfl rfl

/-- C2 counterexample: the beam-package rsync_data with retryDelay=5,
backoffFactor=2.0, maxRetries=4 and every attempt failing sleeps four times
(5, 10, 20 and then 40 seconds after the final attempt), not the three sleeps
the claim asserts: a sleep does occur after the final attempt. -/
theorem claim2_counterexample :
    (BEAMT.rsync_data (fun _ => false) 4 5 2).sleeps = [5, 10, 20, 40] ∧
    (BEAMT.rsync_data (fun _ => false) 4 5 2).sleeps ≠ [5, 10, 20] := by
  constructor
  · norm_num [BEAMT.rsync_data, BEAMT.rsyncLoop, backoffNext, pyInt]
  · norm_num [BEAMT.rsync_data, BEAMT.rsyncLoop, backoffNext, pyInt]

/-- C2 (amended): in transfer_with_retry.py's rsync_data, when every attempt
fails the call makes exactly max(maxRetries, 0) attempts, returns Failure, and
the sleeps between consecutive attempts follow the truncated backoff sequence
(retry_delay, then repeatedly int(delay * backoff_factor)), with no sleep after
the final attempt; for retryDelay=5, backoffFactor=2.0, maxRetries=4 the sleeps
are exactly 5, 10, 20.  The beam-package variant instead sleeps after every
failed attempt, including the final one: 5, 10, 20, 40. -/
theorem claim2_amended :
    (∀ (attemptOk : ℕ → Bool) (mr d0 : ℤ) (bf : ℚ), (∀ i, attemptOk i = false) →
        TWR.rsync_data attemptOk mr d0 bf =
          ⟨false, mr.toNat, (List.range (mr.toNat - 1)).map (delaySeq bf d0)⟩) ∧
    TWR.rsync_data (fun _ => false) 4 5 2 = ⟨false, 4, [5, 10, 20]⟩ ∧
    BEAMT.rsync_data (fun _ => false) 4 5 2 = ⟨false, 4, [5, 10, 20, 40]⟩ := by
  refine ⟨fun ao mr d0 bf h => rsyncGo_allFail ao bf h mr.toNat 1 d0, ?_, ?_⟩
  · norm_num [TWR.rsync_data, TWR.rsyncGo, backoffNext, pyInt]
  · norm_num [BEAMT.rsync_data, BEAMT.rsyncLoop, backoffNext, pyInt]

/-- C2 witness: the all-fail description instantiated at maxRetries=3,
retryDelay=7, backoffFactor=2. -/
theorem claim2_witness :
    TWR.rsync_data (fun _ => false) 3 7 2 =
      ⟨false, (3 : ℤ).toNat, (List.range ((3 : ℤ).toNat - 1)).map (delaySeq 2 7)⟩ :=
  claim2_amended.1 (fun _ => false) 3 7 2 (fun _ => rfl)

/-- C3 counterexample: in the daily run of beam/transfer_with_retry.py, a node
already recorded dead (node_alive = false, last_offline_time = 100) that fails
its probe again — identical reachability — has last_offline_time re-stamped to
the current time 200, so repeated probes with identical reachability do alter
lastOfflineAt. -/
theorem claim3_counterexample :
    (BEAMT.dailyNode false false 200 ⟨false, false, none, some 100, none⟩).last_offline_time
      = some 200 ∧
    (⟨false, false, none, some 100, none⟩ : BState).node_alive = false ∧
    some (200 : ℤ) ≠ some (100 : ℤ) := by
  exact ⟨rfl, rfl, by decide⟩

/-- C3 (amended): in supervisor_ping_check.py a probe whose reachability equals
the recorded health leaves the node record unchanged, lastOnlineAt changes only
on an Unreachable-to-Reachable transition and lastOfflineAt only on a
Reachable-to-Unreachable transition; by contrast, in the daily run of
beam/transfer_with_retry.py every failed probe unconditionally sets the node
dead and re-stamps lastOfflineAt, regardless of the previously recorded
health. -/
theorem claim3_amended :
    (∀ (a : Bool) (now : ℤ) (s : BState), a = s.node_alive →
        SPC.probeNode a now s = s) ∧
    (∀ (a : Bool) (now : ℤ) (s : BState),
        (SPC.probeNode a now s).last_online_time ≠ s.last_online_time →
        a = true ∧ s.node_alive = false) ∧
    (∀ (a : Bool) (now : ℤ) (s : BState),
        (SPC.probeNode a now s).last_offline_time ≠ s.last_offline_time →
        a = false ∧ s.node_alive = true) ∧
    (∀ (rsyncOk : Bool) (now : ℤ) (s : BState),
        BEAMT.dailyNode false rsyncOk now s =
          { s with node_alive := false, last_offline_time := some now }) :=
  ⟨fun a now s h => probeNode_frame a now s h,
   fun a now s h => probeNode_online a now s h,
   fun a now s h => probeNode_offline a now s h,
   fun _ _ _ => rfl⟩

/-- C3 witness: a probe reporting reachable on a node already recorded alive
leaves the record untouched. -/
theorem claim3_witness :
    SPC.probeNode true 5 ⟨true, false, none, none, none⟩ =
      ⟨true, false, none, none, none⟩ :=
  claim3_amended.1 true 5 ⟨true, false, none, none, none⟩ rfl

/-- C4 counterexample: in transfer_with_retry.py an absent max_cycles key yields
the default 3 (a bounded run, not unbounded), and max_cycles = 0 makes
range(1, 0 + 1) empty, so with a node still outstanding the scheduler executes
zero cycles and terminates immediately instead of running forever. -/
theorem claim4_counterexample :
    TWR.getMaxCycles none = 3 ∧
    TWR.runScheduler (fun _ r => r) 0 ["node1"] = (0, ["node1"]) := by
  exact ⟨rfl, by decide⟩

/-- C4 (amended): max_cycles defaults to 3 when absent and is used as given
otherwise; the scheduler executes at most max(max_cycles, 0) cycle bodies,
breaks immediately (zero cycles) when no node is outstanding, and whenever it
stops before exhausting its cycle budget the outstanding set is empty — so
max_cycles = 0 means zero cycles, not an unbounded run (the unbounded daemon
loop lives in queue_shipped_data.py, not here). -/
theorem claim4_amended :
    TWR.getMaxCycles none = 3 ∧
    (∀ v : ℤ, TWR.getMaxCycles (some v) = v) ∧
    (∀ (step : ℕ → List String → List String) (mc : ℤ) (rem : List String),
        (TWR.runScheduler step mc rem).1 ≤ mc.toNat) ∧
    (∀ (step : ℕ → List String → List String) (fuel cycle : ℕ),
        TWR.cycleLoop step fuel cycle [] = (0, [])) ∧
    (∀ (step : ℕ → List String → List String) (fuel cycle : ℕ) (rem : List String),
        (TWR.cycleLoop step fuel cycle rem).1 < fuel →
        (TWR.cycleLoop step fuel cycle rem).2 = []) :=
  ⟨rfl,
   fun _ => rfl,
   fun step mc rem => cycleLoop_le step mc.toNat 1 rem,
   fun step fuel cycle => cycleLoop_nil step fuel cycle,
   fun step fuel cycle rem h => cycleLoop_early step fuel cycle rem h⟩

/-- C4 witness: a run that empties the outstanding set in its first cycle stops
early with nothing outstanding. -/
theorem claim4_witness :
    (TWR.cycleLoop (fun _ _ => []) 2 1 ["a"]).2 = [] :=
  claim4_amended.2.2.2.2 (fun _ _ => []) 2 1 ["a"] (by decide)

/-- C5: across every component, the transfer-failed flag is cleared only by a
successful transfer: the supervisor_ping_check probe pass never touches it and
its catch-up pass clears it only when rsync succeeded; the beam daily run
clears it only when the node was reachable and the pull succeeded; in
queue_shipped_data both ping passes preserve it, the initial pass never clears
a set flag, and the retry pass clears it only when rsync succeeded. -/
theorem claim5_thm :
    (∀ (a : Bool) (now : ℤ) (s : BState),
        (SPC.probeNode a now s).fail_to_request_data = s.fail_to_request_data) ∧
    (∀ (rsyncOk : Bool) (s : BState), s.fail_to_request_data = true →
        (SPC.catchupNode rsyncOk s).1.fail_to_request_data = false → rsyncOk = true) ∧
    (∀ (p r : Bool) (now : ℤ) (s : BState), s.fail_to_request_data = true →
        (BEAMT.dailyNode p r now s).fail_to_request_data = false →
        p = true ∧ r = true) ∧
    (∀ (reach : String → Bool) (n : QSD.Node),
        (QSD.pingNode reach n).transfer_fail = n.transfer_fail ∧
        (QSD.pingDeadNode reach n).transfer_fail = n.transfer_fail) ∧
    (∀ (rsyncOk : String → Bool) (n : QSD.Node), n.transfer_fail = true →
        (QSD.initialStep rsyncOk n).transfer_fail = true) ∧
    (∀ (rsyncOk : String → Bool) (n : QSD.Node), n.transfer_fail = true →
        (QSD.retryStep rsyncOk n).1.transfer_fail = false → rsyncOk n.name = true) := by
  refine ⟨?_, ?_, ?_, ?_, ?_, ?_⟩
  · intro a now s
    cases a <;> cases hn : s.node_alive <;> simp [SPC.probeNode, hn]
  · intro rok s hf hc
    cases rok
    · exfalso
      cases hn : s.node_alive <;> simp [SPC.catchupNode, hf, hn] at hc
    · rfl
  · intro p r now s hf hc
    cases p <;> cases r <;> simp_all [BEAMT.dailyNode]
  · intro reach n
    constructor
    · unfold QSD.pingNode; split_ifs <;> rfl
    · unfold QSD.pingDeadNode; split_ifs <;> rfl
  · intro rok n hf
    unfold QSD.initialStep
    split_ifs with h1 h2 <;> simp_all
  · intro rok n hf hc
    cases hr : rok n.name
    · exfalso
      by_cases h1 : n.state = "alive" ∧ n.transfer_fail = true
      · simp [QSD.retryStep, h1, hr, hf] at hc
      · have hs : ¬ n.state = "alive" := fun hs => h1 ⟨hs, hf⟩
        simp [QSD.retryStep, hs, hf] at hc
    · rfl

/-- C5 witness: an alive node with the flag set whose retry rsync succeeds had
a successful transfer behind the cleared flag. -/
theorem claim5_witness :
    (fun _ : String => true) "beta" = true :=
  claim5_thm.2.2.2.2.2 (fun _ => true) ⟨"beta", "10.0.0.2", true, "alive"⟩ rfl (by decide)

/-- C6: has_fresh_heartbeat returns true iff the node's marker file entry
exists (is statable) and now minus its modification time is at most
max_age_sec; a missing or unreadable marker entry yields false — the embedding
is a total function, so no exception is possible. -/
theorem hfhMtime (fs : String → Option ℚ) (now : ℚ)
    (node_name heartbeat_dir : String) (max_age_sec : ℤ) (m : ℚ)
    (hfs : fs (TWR.heartbeatPath heartbeat_dir node_name) = some m) :
    TWR.has_fresh_heartbeat fs now node_name heartbeat_dir max_age_sec =
      if now - m > (max_age_sec : ℚ) then false else true := by
  unfold TWR.has_fresh_heartbeat
  rw [hfs]

theorem hfhMissing (fs : String → Option ℚ) (now : ℚ)
    (node_name heartbeat_dir : String) (max_age_sec : ℤ)
    (hfs : fs (TWR.heartbeatPath heartbeat_dir node_name) = none) :
    TWR.has_fresh_heartbeat fs now node_name heartbeat_dir max_age_sec = false := by
  unfold TWR.has_fresh_heartbeat
  rw [hfs]

theorem claim6_thm (fs : String → Option ℚ) (now : ℚ)
    (node_name heartbeat_dir : String) (max_age_sec : ℤ) :
    (TWR.has_fresh_heartbeat fs now node_name heartbeat_dir max_age_sec = true ↔
      ∃ m, fs (TWR.heartbeatPath heartbeat_dir node_name) = some m ∧
        now - m ≤ (max_age_sec : ℚ)) ∧
    (fs (TWR.heartbeatPath heartbeat_dir node_name) = none →
      TWR.has_fresh_heartbeat fs now node_name heartbeat_dir max_age_sec = false) := by
  cases hfs : fs (TWR.heartbeatPath heartbeat_dir node_name) with
  | none =>
    refine ⟨?_, fun _ => hfhMissing fs now node_name heartbeat_dir max_age_sec hfs⟩
    rw [hfhMissing fs now node_name heartbeat_dir max_age_sec hfs]
    simp
  | some m =>
    refine ⟨?_, fun h => absurd h (by simp)⟩
    rw [hfhMtime fs now node_name heartbeat_dir max_age_sec m hfs]
    constructor
    · intro h
      by_cases hgt : now - m > (max_age_sec : ℚ)
      · rw [if_pos hgt] at h
        exact absurd h (by simp)
      · exact ⟨m, rfl, not_lt.mp hgt⟩
    · rintro ⟨m2, hm2, hle⟩
      obtain rfl : m = m2 := by injection hm2
      rw [if_neg (not_lt.mpr hle)]

/-- C6 witness: with no marker entry on the filesystem the gate reports not
fresh. -/
theorem claim6_witness :
    TWR.has_fresh_heartbeat (fun _ => none) 0 "beta" "hb" 120 = false :=
  (claim6_thm (fun _ => none) 0 "beta" "hb" 120).2 rfl

/-- C7 counterexample: queue_shipped_data.ping_latency on a successful probe
(exit code 0) whose output line contains "avg" but has no fifth
slash-separated field raises an uncaught IndexError instead of returning None. -/
theorem claim7_counterexample :
    QSD.ping_latency 0 ["rtt avg = bad".toList] (fun _ => none) =
      .error .indexError := rfl

/-- C7 (amended): transfer_with_retry.ping_latency never raises — an
unreachable host (nonzero exit code) yields None, and a latency is returned
only when some line contains the rtt marker and parses, so a probe without a
parsable average latency yields None; queue_shipped_data.ping_latency also
yields None on network failure (exit code caught) and on output with no "avg"
line, but its parse of an "avg" line is outside any handler and can raise. -/
theorem claim7_amended :
    (∀ (res : TWR.ProcResult) (pf : PyStr → Option ℚ), res.returncode ≠ 0 →
        TWR.ping_latency res pf = none) ∧
    (∀ (pf : PyStr → Option ℚ) (lines : List PyStr) (v : ℚ),
        TWR.pingScan pf lines = some v →
        ∃ l, l ∈ lines ∧ isSubstrL TWR.rttPat l = true ∧ TWR.parseAvg pf l = some v) ∧
    (∀ (rc : ℤ) (lines : List PyStr) (pf : PyStr → Option ℚ), rc ≠ 0 →
        QSD.ping_latency rc lines pf = .ok none) ∧
    (∀ (pf : PyStr → Option ℚ) (lines : List PyStr),
        (∀ l ∈ lines, isSubstrL QSD.avgPat l = false) →
        QSD.pingScan pf lines = .ok none) := by
  refine ⟨?_, ?_, ?_, ?_⟩
  · intro res pf h
    unfold TWR.ping_latency
    rw [if_pos h]
  · intro pf lines v h
    exact twrScan_some pf lines v h
  · intro rc lines pf h
    unfold QSD.ping_latency
    rw [if_neg h]
  · intro pf lines h
    exact qsdScan_noAvg pf lines h

/-- C7 witness: a failed probe yields None from the top-level ping_latency. -/
theorem claim7_witness :
    TWR.ping_latency ⟨1, []⟩ (fun _ => none) = none :=
  claim7_amended.1 ⟨1, []⟩ (fun _ => none) (by decide)

/-- C8: candidate processing follows the total order given by the key
(priority ascending, latency ascending): the sorted list is ordered by candLe
and is a permutation of the candidate set, and for A(priority=1, latency=50),
B(priority=1, latency=10), C(priority=2, latency=1) the processing order is
exactly B, A, C. -/
theorem claim8_thm :
    (∀ cs : List TWR.Cand,
        List.Sorted TWR.candLe (TWR.sortCandidates cs) ∧
        List.Perm (TWR.sortCandidates cs) cs) ∧
    TWR.processOrder [⟨"A", 1, 50⟩, ⟨"B", 1, 10⟩, ⟨"C", 2, 1⟩] = ["B", "A", "C"] := by
  refine ⟨fun cs => ⟨List.sorted_insertionSort TWR.candLe cs,
    List.perm_insertionSort TWR.candLe cs⟩, ?_⟩
  decide

/-- C9: in the retry loop of queue_shipped_data.py an alive node stays alive
for the remainder of the run: the re-probe pass leaves alive nodes completely
untouched (it only examines non-alive nodes), the retry transfer step never
changes the state field, and any number of retry cycles preserves state
alive. -/
theorem claim9_thm :
    (∀ (reach : String → Bool) (n : QSD.Node), n.state = "alive" →
        QSD.pingDeadNode reach n = n) ∧
    (∀ (rsyncOk : String → Bool) (n : QSD.Node),
        (QSD.retryStep rsyncOk n).1.state = n.state) ∧
    (∀ (reach rsyncOk : ℕ → String → Bool) (k : ℕ) (n : QSD.Node),
        n.state = "alive" → (QSD.runRetryCycles reach rsyncOk k n).state = "alive") :=
  ⟨fun reach n h => pingDeadNode_alive reach n h,
   fun rsyncOk n => retryStep_state rsyncOk n,
   fun reach rsyncOk k n h => runRetryCycles_alive reach rsyncOk k n h⟩

/-- C9 witness: an alive node that fails every probe and every transfer in
three further cycles is still alive. -/
theorem claim9_witness :
    (QSD.runRetryCycles (fun _ _ => false) (fun _ _ => false) 3
      ⟨"beta", "10.0.0.2", true, "alive"⟩).state = "alive" :=
  claim9_thm.2.2 (fun _ _ => false) (fun _ _ => false) 3
    ⟨"beta", "10.0.0.2", true, "alive"⟩ rfl

/-- C10: rsync_data called with maxRetries ≤ 0 returns Failure immediately,
with zero rsync invocations and zero sleeps. -/
theorem claim10_thm (attemptOk : ℕ → Bool) (mr d0 : ℤ) (bf : ℚ) (h : mr ≤ 0) :
    TWR.rsync_data attemptOk mr d0 bf = ⟨false, 0, []⟩ := by
  unfold TWR.rsync_data
  rw [Int.toNat_of_nonpos h]
  rfl

/-- C10 witness: with maxRetries = 0 even an always-succeeding copy oracle is
never consulted and the call fails with no attempts and no sleeps. -/
theorem claim10_witness :
    TWR.rsync_data (fun _ => true) 0 5 2 = ⟨false, 0, []⟩ :=
  claim10_thm (fun _ => true) 0 5 2 le_rfl
